import Mathlib

/-!
Verification of the TTL memoization cache and route handlers of the
`fees` repository (an Express proxy in front of Dune Analytics and the
Lighter exchange APIs).

The JavaScript source (`routes/api.js`) keeps a module-level
`cache : Map<string, {data, timestamp}>` together with

* `CACHE_TTL = 6 * 60 * 60 * 1000`
* `getCacheKey(endpoint, queryId) = endpoint + "_" + queryId`
* `getCachedData(key)`: returns `cached.data` when
  `Date.now() - cached.timestamp < CACHE_TTL`, otherwise deletes a stale
  entry and returns `null`
* `setCachedData(key, data)`: stores `{data, timestamp: Date.now()}`

and every cached route handler performs the read-check-fetch-store
sequence (see `/depositors`).  The embedding below passes the cache state
and the clock explicitly; the asynchronous producer is embedded as the
`Except` value its single awaited invocation yields, and a Boolean records
whether the handler reached that invocation.  Store mutations (puts and
deletes) are recorded in an operation trace so frame conditions can be
stated.
-/

namespace Fees

/-- Six hours in milliseconds: the `CACHE_TTL` constant of the source. -/
def CACHE_TTL : Nat := 6 * 60 * 60 * 1000

/-- An entry of the in-memory cache: `{data, timestamp}`. -/
structure CacheEntry (α : Type) where
  data : α
  timestamp : Nat
deriving DecidableEq

/-- The `Map` used as cache, embedded as an association list holding at
most one binding per key (inserts overwrite). -/
abbrev CacheState (α : Type) : Type := List (String × CacheEntry α)

/-- Embeds `cache.get(key)`. -/
def cacheGet (key : String) : CacheState α → Option (CacheEntry α)
  | [] => none
  | (k, e) :: rest => if k = key then some e else cacheGet key rest

/-- Embeds `cache.delete(key)`. -/
def cacheDelete (key : String) : CacheState α → CacheState α
  | [] => []
  | (k, e) :: rest =>
      if k = key then cacheDelete key rest else (k, e) :: cacheDelete key rest

/-- Embeds `cache.set(key, e)`: insert or overwrite. -/
def cacheSet (key : String) (e : CacheEntry α) (st : CacheState α) :
    CacheState α :=
  (key, e) :: cacheDelete key st

/-- A store mutation performed on the cache `Map`. -/
inductive StoreOp where
  | put (key : String)
  | del (key : String)
deriving DecidableEq

/-- Embeds `getCacheKey(endpoint, queryId)` from the source:
`` `${endpoint}_${queryId}` ``. -/
def getCacheKey (endpoint queryId : String) : String :=
  endpoint ++ "_" ++ queryId

/-- Result of a `getCachedData` call: the payload on a fresh hit, the
cache state afterwards, and the store mutations performed. -/
structure ReadOutcome (α : Type) where
  hit : Option α
  state : CacheState α
  ops : List StoreOp
deriving DecidableEq

/-- Embeds `getCachedData(key)` from the source: return the payload when the
entry is fresh (`Date.now() - cached.timestamp < CACHE_TTL`), otherwise
delete a stale entry and return `null`. -/
def getCachedData (key : String) (st : CacheState α) (now : Nat) :
    ReadOutcome α :=
  match cacheGet key st with
  | some cached =>
      if now - cached.timestamp < CACHE_TTL then ⟨some cached.data, st, []⟩
      else ⟨none, cacheDelete key st, [StoreOp.del key]⟩
  | none => ⟨none, st, []⟩

/-- Embeds `setCachedData(key, data)` from the source: store
`{data, timestamp: Date.now()}`. -/
def setCachedData (key : String) (data : α) (st : CacheState α)
    (now : Nat) : CacheState α :=
  cacheSet key ⟨data, now⟩ st

/-- Result of one get-or-fetch sequence: the produced or cached value,
the cache state afterwards, whether the producer was invoked, and the
store mutations performed anywhere during the call. -/
structure FetchOutcome (ε α : Type) where
  result : Except ε α
  state : CacheState α
  producerInvoked : Bool
  ops : List StoreOp

/-- The read-check-fetch-store sequence every cached route handler of the
source performs (e.g. `/depositors`, lines 88-108): consult
`getCachedData`; on a hit return the cached payload; otherwise await the
producer, and on success store the payload with `setCachedData` before
returning it; on failure return the error without writing. -/
def getOrFetch (key : String) (producer : Except ε α) (st : CacheState α)
    (now : Nat) : FetchOutcome ε α :=
  let r := getCachedData key st now
  match r.hit with
  | some d => ⟨Except.ok d, r.state, false, r.ops⟩
  | none =>
      match producer with
      | Except.ok d =>
          ⟨Except.ok d, setCachedData key d r.state now, true,
            r.ops ++ [StoreOp.put key]⟩
      | Except.error e => ⟨Except.error e, r.state, true, r.ops⟩

theorem cacheGet_cacheSet_self (key : String) (e : CacheEntry α)
    (st : CacheState α) : cacheGet key (cacheSet key e st) = some e := by
  simp [cacheSet, cacheGet]

theorem cacheGet_cacheDelete_self (key : String) (st : CacheState α) :
    cacheGet key (cacheDelete key st) = none := by
  induction st with
  | nil => rfl
  | cons hd tl ih =>
      obtain ⟨k, e⟩ := hd
      by_cases h : k = key <;> simp [cacheDelete, cacheGet, h, ih]

theorem cacheGet_cacheDelete_ne (key key' : String) (h : key ≠ key')
    (st : CacheState α) : cacheGet key' (cacheDelete key st) = cacheGet key' st := by
  induction st with
  | nil => rfl
  | cons hd tl ih =>
      obtain ⟨k, e⟩ := hd
      by_cases hk : k = key
      · subst hk
        simp [cacheDelete, cacheGet, h, ih]
      · by_cases hk' : k = key'
        · subst hk'
          simp [cacheDelete, cacheGet, hk]
        · simp [cacheDelete, cacheGet, hk, hk', ih]

theorem cacheGet_cacheSet_ne (key key' : String) (h : key ≠ key')
    (e : CacheEntry α) (st : CacheState α) :
    cacheGet key' (cacheSet key e st) = cacheGet key' st := by
  simp [cacheSet, cacheGet, h, cacheGet_cacheDelete_ne key key' h st]

/-- Claim C10: `getCachedData` is a read with an eviction side effect:
after any call, the store either holds a fresh entry for the key whose
payload was returned, or holds no entry for the key at all; no entry
older than `CACHE_TTL` survives a read of its key. -/
theorem getCachedData_fresh_or_absent (key : String) (st : CacheState α)
    (now : Nat) :
    (∃ e : CacheEntry α, cacheGet key (getCachedData key st now).state = some e ∧
        now - e.timestamp < CACHE_TTL ∧
        (getCachedData key st now).hit = some e.data) ∨
    (cacheGet key (getCachedData key st now).state = none ∧
        (getCachedData key st now).hit = none) := by
  unfold getCachedData
  rcases h : cacheGet key st with _ | e
  · exact Or.inr ⟨h, rfl⟩
  · by_cases hf : now - e.timestamp < CACHE_TTL
    · exact Or.inl ⟨e, by simp [hf, h]⟩
    · exact Or.inr ⟨by simp [hf, cacheGet_cacheDelete_self], by simp [hf]⟩

/-- Claim C1: freshness invariant.  If a `getOrFetch` at time `t₀` misses
(and hence invokes its producer, which succeeds with `d` and stores it),
then any second `getOrFetch` at a time `t₁` with `t₁ - t₀ < CACHE_TTL`
returns the stored payload `d`, does not invoke its producer, performs no
store mutation, and leaves the state unchanged. -/
theorem getOrFetch_fresh_hit {α ε : Type} (k : String) (d : α)
    (st : CacheState α) (p : Except ε α) (t₀ t₁ : Nat)
    (hmiss : (getCachedData k st t₀).hit = none)
    (hfresh : t₁ - t₀ < CACHE_TTL) :
    getOrFetch k p ((getOrFetch k (Except.ok d : Except ε α) st t₀).state) t₁ =
      ⟨Except.ok d, (getOrFetch k (Except.ok d : Except ε α) st t₀).state,
        false, []⟩ := by
  have h1 : getOrFetch k (Except.ok d : Except ε α) st t₀ =
      ⟨Except.ok d, setCachedData k d (getCachedData k st t₀).state t₀, true,
        (getCachedData k st t₀).ops ++ [StoreOp.put k]⟩ := by
    simp only [getOrFetch]
    rcases hr : getCachedData k st t₀ with ⟨o, st2, ops⟩
    rw [hr] at hmiss
    simp only at hmiss
    subst hmiss
    rfl
  rw [h1]
  simp [getOrFetch, getCachedData, setCachedData, cacheGet_cacheSet_self, hfresh]

/-- Witness for C1 (the spec's Scenario A): a first fetch of
`depositors_5253927` at time 0 succeeds with payload 70000; a second call
one second later returns 70000 without consulting its (failing) producer
and without touching the store. -/
theorem getOrFetch_fresh_hit_witness :
    getOrFetch "depositors_5253927" (Except.error "down")
        ((getOrFetch "depositors_5253927"
            (Except.ok 70000 : Except String Nat) ([] : CacheState Nat) 0).state)
        1000 =
      ⟨Except.ok 70000,
        (getOrFetch "depositors_5253927"
            (Except.ok 70000 : Except String Nat) ([] : CacheState Nat) 0).state,
        false, []⟩ :=
  getOrFetch_fresh_hit "depositors_5253927" 70000 [] (Except.error "down") 0 1000
    (by decide) (by decide)

/-- Claim C2: expiry invariant.  An entry stored at time `t₀` and read at
`t₁` with `t₁ - t₀ ≥ CACHE_TTL` is treated as absent: the read returns
nothing, the entry is evicted from the store, and a `getOrFetch` at `t₁`
invokes the producer again. -/
theorem getOrFetch_stale_refetch {α ε : Type} (k : String) (d : α)
    (st : CacheState α) (p : Except ε α) (t₀ t₁ : Nat)
    (hstale : CACHE_TTL ≤ t₁ - t₀) :
    (getCachedData k (setCachedData k d st t₀) t₁).hit = none ∧
    cacheGet k (getCachedData k (setCachedData k d st t₀) t₁).state = none ∧
    (getOrFetch k p (setCachedData k d st t₀) t₁).producerInvoked = true := by
  have hget : cacheGet k (setCachedData k d st t₀) = some ⟨d, t₀⟩ :=
    cacheGet_cacheSet_self k ⟨d, t₀⟩ st
  have hnf : ¬ (t₁ - t₀ < CACHE_TTL) := not_lt.mpr hstale
  have hread : getCachedData k (setCachedData k d st t₀) t₁ =
      ⟨none, cacheDelete k (setCachedData k d st t₀), [StoreOp.del k]⟩ := by
    unfold getCachedData
    rw [hget]
    simp [hnf]
  refine ⟨by rw [hread], ?_, ?_⟩
  · rw [hread]
    exact cacheGet_cacheDelete_self k _
  · unfold getOrFetch
    rw [hread]
    cases p <;> rfl

/-- Witness for C2 (the spec's Scenario B): an entry stored at time 0 and
read seven hours later is gone, and the fetch at that time invokes the
producer. -/
theorem getOrFetch_stale_refetch_witness :
    (getCachedData "depositors_5253927"
        (setCachedData "depositors_5253927" (70000 : Nat) [] 0)
        (7 * 60 * 60 * 1000)).hit = none ∧
    cacheGet "depositors_5253927"
        (getCachedData "depositors_5253927"
          (setCachedData "depositors_5253927" (70000 : Nat) [] 0)
          (7 * 60 * 60 * 1000)).state = none ∧
    (getOrFetch "depositors_5253927" (Except.ok 70001 : Except String Nat)
        (setCachedData "depositors_5253927" (70000 : Nat) [] 0)
        (7 * 60 * 60 * 1000)).producerInvoked = true :=
  getOrFetch_stale_refetch "depositors_5253927" 70000 [] (Except.ok 70001) 0
    (7 * 60 * 60 * 1000) (by decide)

/-- Test for a `put` mutation. -/
def StoreOp.isPut : StoreOp → Bool
  | StoreOp.put _ => true
  | StoreOp.del _ => false

/-- Test for a `delete` mutation. -/
def StoreOp.isDel : StoreOp → Bool
  | StoreOp.del _ => true
  | StoreOp.put _ => false

/-- Test for a successful producer result. -/
def exceptOk : Except ε α → Bool
  | Except.ok _ => true
  | Except.error _ => false

/-- Whether the cache holds a stale entry (one with
`CACHE_TTL ≤ now - timestamp`) for the key. -/
def staleEntryAt (key : String) (st : CacheState α) (now : Nat) : Bool :=
  match cacheGet key st with
  | some e => decide (CACHE_TTL ≤ now - e.timestamp)
  | none => false

/-- Counterexample to claim C3 as stated: with a stale entry for `"k"`
in the store and a failing producer, `getOrFetch` propagates the error
but the stale entry is NOT left in place — the read evicts it, so the
store holds nothing for `"k"` afterwards. -/
theorem stale_entry_evicted_on_failed_fetch :
    cacheGet "k" ([("k", ⟨7, 0⟩)] : CacheState Nat) = some ⟨7, 0⟩ ∧
    (getOrFetch "k" (Except.error "boom" : Except String Nat)
        [("k", ⟨7, 0⟩)] CACHE_TTL).result = Except.error "boom" ∧
    cacheGet "k" (getOrFetch "k" (Except.error "boom" : Except String Nat)
        [("k", ⟨7, 0⟩)] CACHE_TTL).state = none := by
  refine ⟨rfl, rfl, ?_⟩
  rfl

/-- Claim C3 (amended): a `getOrFetch` whose read misses (no entry or a
stale one) and whose producer fails propagates the error, performs no
`put` (nothing is memoized — its only possible mutation is the eviction
of a stale entry by the read), leaves no entry for the key, and a
subsequent call at any time invokes the producer again. -/
theorem failed_fetch_writes_no_entry {α ε : Type} (k : String) (e : ε)
    (st : CacheState α) (t t' : Nat) (p : Except ε α)
    (hmiss : (getCachedData k st t).hit = none) :
    (getOrFetch k (Except.error e : Except ε α) st t).result = Except.error e ∧
    (getOrFetch k (Except.error e : Except ε α) st t).state =
      (getCachedData k st t).state ∧
    (∀ op ∈ (getOrFetch k (Except.error e : Except ε α) st t).ops,
        op.isPut = false) ∧
    cacheGet k (getOrFetch k (Except.error e : Except ε α) st t).state = none ∧
    (getOrFetch k p
        (getOrFetch k (Except.error e : Except ε α) st t).state t').producerInvoked
      = true := by
  have h1 : getOrFetch k (Except.error e : Except ε α) st t =
      ⟨Except.error e, (getCachedData k st t).state, true,
        (getCachedData k st t).ops⟩ := by
    simp only [getOrFetch]
    rcases hr : getCachedData k st t with ⟨o, st2, ops⟩
    rw [hr] at hmiss
    simp only at hmiss
    subst hmiss
    rfl
  have habsent : cacheGet k (getCachedData k st t).state = none := by
    rcases getCachedData_fresh_or_absent k st t with ⟨f, _, _, hf⟩ | ⟨h2, _⟩
    · rw [hf] at hmiss
      exact absurd hmiss (by simp)
    · exact h2
  have hops : ∀ op ∈ (getCachedData k st t).ops, op.isPut = false := by
    unfold getCachedData
    rcases cacheGet k st with _ | c
    · simp
    · by_cases hf : t - c.timestamp < CACHE_TTL <;>
        simp [hf, StoreOp.isDel, StoreOp.isPut]
  refine ⟨by rw [h1], by rw [h1], by rw [h1]; exact hops, by rw [h1]; exact habsent, ?_⟩
  rw [h1]
  generalize hs : (getCachedData k st t).state = s2 at habsent ⊢
  simp only [getOrFetch, getCachedData, habsent]
  cases p <;> rfl

/-- Witness for C3 (amended), the spec's Scenario C: on an empty store a
failing producer leaves the store empty, performs no put, and a retry
invokes the producer. -/
theorem failed_fetch_writes_no_entry_witness :
    (getOrFetch "depositors_5253927" (Except.error "boom" : Except String Nat)
        ([] : CacheState Nat) 0).result = Except.error "boom" ∧
    (getOrFetch "depositors_5253927" (Except.error "boom" : Except String Nat)
        ([] : CacheState Nat) 0).state =
      (getCachedData "depositors_5253927" ([] : CacheState Nat) 0).state ∧
    (∀ op ∈ (getOrFetch "depositors_5253927"
        (Except.error "boom" : Except String Nat) ([] : CacheState Nat) 0).ops,
        op.isPut = false) ∧
    cacheGet "depositors_5253927"
        (getOrFetch "depositors_5253927"
          (Except.error "boom" : Except String Nat) ([] : CacheState Nat) 0).state
      = none ∧
    (getOrFetch "depositors_5253927" (Except.ok 70000 : Except String Nat)
        (getOrFetch "depositors_5253927"
          (Except.error "boom" : Except String Nat) ([] : CacheState Nat) 0).state
        500).producerInvoked = true :=
  failed_fetch_writes_no_entry "depositors_5253927" "boom" [] 0 500
    (Except.ok 70000) (by decide)

/-- Counterexample to claim C4 as stated: over a store holding a stale
entry for `"k"`, a call with a FAILING producer still performs one
mutation (the eviction of the stale entry), not zero, and a call with a
SUCCEEDING producer performs two mutations (one delete plus one put),
not one. -/
theorem mutation_count_exceeds_claim :
    ((getOrFetch "k" (Except.error "boom" : Except String Nat)
        [("k", ⟨7, 0⟩)] CACHE_TTL).ops).length = 1 ∧
    ((getOrFetch "k" (Except.ok 8 : Except String Nat)
        [("k", ⟨7, 0⟩)] CACHE_TTL).ops).length = 2 := by
  exact ⟨rfl, rfl⟩

/-- Claim C4 (amended): counting every mutation performed during a
`getOrFetch` call, there is exactly one `put` when the producer is
invoked and succeeds and zero `put`s otherwise, plus exactly one
`delete` when the store held a stale entry for the key and zero
`delete`s otherwise.  (So a successful fetch over a stale entry performs
two mutations and a failed fetch over a stale entry performs one.) -/
theorem getOrFetch_mutation_count {α ε : Type} (k : String)
    (p : Except ε α) (st : CacheState α) (now : Nat) :
    (((getOrFetch k p st now).ops.filter StoreOp.isPut).length =
        cond ((getOrFetch k p st now).producerInvoked && exceptOk p) 1 0) ∧
    (((getOrFetch k p st now).ops.filter StoreOp.isDel).length =
        cond (staleEntryAt k st now) 1 0) := by
  unfold getOrFetch getCachedData staleEntryAt
  rcases cacheGet k st with _ | c
  · cases p <;> simp [exceptOk, StoreOp.isPut, StoreOp.isDel]
  · by_cases hf : now - c.timestamp < CACHE_TTL
    · have : ¬ CACHE_TTL ≤ now - c.timestamp := not_le.mpr hf
      cases p <;> simp [hf, this, exceptOk, StoreOp.isPut, StoreOp.isDel]
    · have : CACHE_TTL ≤ now - c.timestamp := not_lt.mp hf
      cases p <;> simp [hf, this, exceptOk, StoreOp.isPut, StoreOp.isDel]

/-- The cache read the spec describes in §4.2, with the freshness window
`ttl` passed per call; stated in the spec's words for comparison with the
code's `getCachedData`, whose window is the global constant
`CACHE_TTL`. -/
def getCachedDataPerCallTtl (ttl : Nat) (key : String) (st : CacheState α)
    (now : Nat) : ReadOutcome α :=
  match cacheGet key st with
  | some cached =>
      if now - cached.timestamp < ttl then ⟨some cached.data, st, []⟩
      else ⟨none, cacheDelete key st, [StoreOp.del key]⟩
  | none => ⟨none, st, []⟩

/-- Counterexample to claim C5 as stated: the code's freshness check
ignores any per-call window.  An entry stored at time 0 and read two
hours later is still served by `getCachedData`, although a per-call
window of one hour (which a different logical endpoint would use, were
TTL per-call) would have expired it. -/
theorem ttl_not_per_call :
    (getCachedData "k" ([("k", ⟨7, 0⟩)] : CacheState Nat)
        (2 * 60 * 60 * 1000)).hit = some 7 ∧
    (getCachedDataPerCallTtl (60 * 60 * 1000) "k"
        ([("k", ⟨7, 0⟩)] : CacheState Nat) (2 * 60 * 60 * 1000)).hit = none := by
  exact ⟨rfl, rfl⟩

/-- Claim C5 (amended): the freshness window of the code is the single
global constant `CACHE_TTL` (six hours in milliseconds), shared by every
endpoint: `getCachedData` coincides with the spec's per-call-TTL read
instantiated at `CACHE_TTL`, and at no other point is a window chosen. -/
theorem getCachedData_uses_global_ttl {α : Type} (key : String)
    (st : CacheState α) (now : Nat) :
    getCachedData key st now = getCachedDataPerCallTtl CACHE_TTL key st now ∧
    CACHE_TTL = 21600000 := by
  exact ⟨rfl, rfl⟩

/-- Counterexample to claim C6 as stated: key derivation is not
injective.  The distinct input pairs `("a_b", "c")` and `("a", "b_c")`
(distinct logical queries) collide on the same cache key `"a_b_c"`. -/
theorem getCacheKey_collision :
    getCacheKey "a_b" "c" = getCacheKey "a" "b_c" ∧
    (("a_b", "c") : String × String) ≠ ("a", "b_c") := by
  exact ⟨rfl, by decide⟩

theorem append_underscore_inj (l₁ m₁ l₂ m₂ : List Char)
    (h₁ : '_' ∉ l₁) (h₂ : '_' ∉ l₂)
    (h : l₁ ++ '_' :: m₁ = l₂ ++ '_' :: m₂) : l₁ = l₂ ∧ m₁ = m₂ := by
  induction l₁ generalizing l₂ with
  | nil =>
      cases l₂ with
      | nil => simpa using h
      | cons c t =>
          simp only [List.nil_append, List.cons_append, List.cons.injEq] at h
          exact absurd (h.1 ▸ List.mem_cons_self c t) h₂
  | cons c t ih =>
      cases l₂ with
      | nil =>
          simp only [List.nil_append, List.cons_append, List.cons.injEq] at h
          exact absurd (h.1 ▸ List.mem_cons_self c t) h₁
      | cons c' t' =>
          simp only [List.cons_append, List.cons.injEq] at h
          obtain ⟨hc, ht⟩ := h
          have h₁' : '_' ∉ t := fun hm => h₁ (List.mem_cons_of_mem c hm)
          have h₂' : '_' ∉ t' := fun hm => h₂ (List.mem_cons_of_mem c' hm)
          obtain ⟨he, hm⟩ := ih t' h₁' h₂' ht
          exact ⟨by rw [hc, he], hm⟩

theorem string_of_data_inj {s t : String} (h : s.data = t.data) : s = t := by
  cases s
  cases t
  exact congrArg String.mk h

theorem getCacheKey_data (e q : String) :
    (getCacheKey e q).data = e.data ++ '_' :: q.data := by
  cases e with
  | mk de =>
      cases q with
      | mk dq => simp [getCacheKey, String.instAppend, String.append]

/-- Claim C6 (amended): key derivation is deterministic, and it is
injective on the pairs the code actually uses — whenever neither
endpoint name contains an underscore (none of the code's endpoint names
does), equal keys force equal input pairs; moreover a fetch under one
key never alters the entry stored under a different key. -/
theorem getCacheKey_inj_no_underscore :
    (∀ e₁ q₁ e₂ q₂ : String, '_' ∉ e₁.data → '_' ∉ e₂.data →
        getCacheKey e₁ q₁ = getCacheKey e₂ q₂ → e₁ = e₂ ∧ q₁ = q₂) ∧
    (∀ (α ε : Type) (k k' : String) (p : Except ε α) (st : CacheState α)
        (now : Nat), k ≠ k' →
        cacheGet k' (getOrFetch k p st now).state = cacheGet k' st) := by
  constructor
  · intro e₁ q₁ e₂ q₂ h₁ h₂ heq
    have hd : e₁.data ++ '_' :: q₁.data = e₂.data ++ '_' :: q₂.data := by
      rw [← getCacheKey_data, ← getCacheKey_data, heq]
    obtain ⟨he, hq⟩ := append_underscore_inj _ _ _ _ h₁ h₂ hd
    exact ⟨string_of_data_inj he, string_of_data_inj hq⟩
  · intro α ε k k' p st now hne
    unfold getOrFetch getCachedData
    rcases cacheGet k st with _ | c
    · cases p <;> simp [setCachedData, cacheGet_cacheSet_ne k k' hne]
    · by_cases hf : now - c.timestamp < CACHE_TTL
      · simp [hf]
      · cases p <;>
          simp [hf, setCachedData, cacheGet_cacheSet_ne k k' hne,
            cacheGet_cacheDelete_ne k k' hne]

/-- Witness for C6 (amended): the underscore-free endpoint names of the
code give collision-free keys — instantiated at the depositors endpoint —
and a fetch under the tvl key leaves the depositors entry alone. -/
theorem getCacheKey_inj_no_underscore_witness :
    ("depositors" = "depositors" ∧ "5253927" = "5253927") ∧
    cacheGet "depositors_5253927"
        (getOrFetch "tvl_5253928" (Except.ok 3 : Except String Nat)
          [("depositors_5253927", ⟨70000, 0⟩)] 0).state =
      cacheGet "depositors_5253927"
        ([("depositors_5253927", ⟨70000, 0⟩)] : CacheState Nat) :=
  ⟨getCacheKey_inj_no_underscore.1 "depositors" "5253927" "depositors" "5253927"
      (by decide) (by decide) rfl,
    getCacheKey_inj_no_underscore.2 Nat String "tvl_5253928" "depositors_5253927"
      (Except.ok 3) [("depositors_5253927", ⟨70000, 0⟩)] 0 (by decide)⟩

/-- Shape of a JSON error body produced by a route handler: which of the
source's fields it carries.  `hasTimestamp` records whether the body
includes a `timestamp: new Date().toISOString()` field. -/
structure ErrBody where
  error : String
  message : Option String
  details : Option String
  hasTimestamp : Bool
  code : Option Nat
deriving DecidableEq

/-- Body of the `/depositors` catch handler:
`{error, message, timestamp}`. -/
def depositorsErrorBody (msg : String) : ErrBody :=
  ⟨"Failed to fetch depositors data", some msg, none, true, none⟩

/-- Body the `checkDuneApiKey` middleware sends with status 500 when
`DUNE_API_KEY` is missing: `{error, message}` — no timestamp. -/
def apiKeyMissingBody : ErrBody :=
  ⟨"Dune API key not configured",
    some "Please set DUNE_API_KEY in your environment variables",
    none, false, none⟩

/-- Body of the `/deposits-timeline` 400 response when no query id is
available: `{error, message}` — no timestamp. -/
def missingQueryIdTimelineBody : ErrBody :=
  ⟨"Missing query ID",
    some "Please provide queryId parameter or set DEPOSITS_TIMELINE_QUERY_ID environment variable",
    none, false, none⟩

/-- Body of the `/deposits-timeline` catch handler:
`{error, message, timestamp}`. -/
def depositsTimelineErrorBody (msg : String) : ErrBody :=
  ⟨"Failed to fetch deposits timeline", some msg, none, true, none⟩

/-- Body of the `/lighter-exchange-stats` catch handler:
`{error, details}` — no message field and no timestamp. -/
def lighterStatsErrorBody (msg : String) : ErrBody :=
  ⟨"Failed to fetch exchange statistics", none, some msg, false, none⟩

/-- Body of the `/lighter-account/:address` 400 response for a malformed
address: `{error}` only. -/
def invalidAddressBody : ErrBody :=
  ⟨"Invalid Ethereum address format", none, none, false, none⟩

/-- Body of the `/lighter-account/:address` 404 response for upstream
error code 21100: `{error, message, code}` — no timestamp. -/
def accountNotFoundBody : ErrBody :=
  ⟨"Account not found",
    some "This address has not used the Lighter protocol yet. Try a different address or create an account on Lighter first.",
    none, false, some 21100⟩

/-- Body of the `/lighter-account/:address` catch handler:
`{error, details}` — no message field and no timestamp. -/
def accountErrorBody (msg : String) : ErrBody :=
  ⟨"Failed to fetch account data", none, some msg, false, none⟩

/-- Outcome of a route handler: HTTP status, the served value or the
error body, the query id the handler resolved (when it reached one), the
cache state afterwards, and whether the producer (the upstream call) was
invoked. -/
structure RouteOutcome (α : Type) where
  status : Nat
  result : Option (Except ErrBody α)
  queryId : Option String
  state : CacheState α
  producerInvoked : Bool

/-- The `/depositors` handler (source lines 83-119): resolve the query
id from the request parameter, falling back to `DEPOSITORS_QUERY_ID` and
then to the constant `'5253927'`; consult the cache under
`getCacheKey('depositors', queryId)`; on a hit serve the cached payload;
on a miss await the producer, cache and serve its payload on success,
and answer 500 with the catch body on failure. -/
def depositorsHandler (queryIdParam envDefault : Option String)
    (producer : Except String α) (st : CacheState α) (now : Nat) :
    RouteOutcome α :=
  let queryId := queryIdParam.getD (envDefault.getD "5253927")
  let cacheKey := getCacheKey "depositors" queryId
  let r := getCachedData cacheKey st now
  match r.hit with
  | some d => ⟨200, some (Except.ok d), some queryId, r.state, false⟩
  | none =>
      match producer with
      | Except.ok d =>
          ⟨200, some (Except.ok d), some queryId,
            setCachedData cacheKey d r.state now, true⟩
      | Except.error msg =>
          ⟨500, some (Except.error (depositorsErrorBody msg)), some queryId,
            r.state, true⟩

/-- The `/deposits-timeline` handler (source lines 377-405): resolve the
query id from the request parameter, falling back to
`DEPOSITS_TIMELINE_QUERY_ID`; answer 400 when neither is present;
otherwise await the producer directly — the cache is neither consulted
nor populated — serving its rows on success and the catch body with 500
on failure. -/
def depositsTimelineHandler (queryIdParam envDefault : Option String)
    (producer : Except String α) (st : CacheState α) : RouteOutcome α :=
  match queryIdParam <|> envDefault with
  | none =>
      ⟨400, some (Except.error missingQueryIdTimelineBody), none, st, false⟩
  | some queryId =>
      match producer with
      | Except.ok d => ⟨200, some (Except.ok d), some queryId, st, true⟩
      | Except.error msg =>
          ⟨500, some (Except.error (depositsTimelineErrorBody msg)),
            some queryId, st, true⟩

/-- The `checkDuneApiKey` middleware (source lines 43-51): when no API
key is configured, answer 500 with `apiKeyMissingBody` and stop;
otherwise pass the request on. -/
def checkDuneApiKey (apiKeyConfigured : Bool) : Option (Nat × ErrBody) :=
  if apiKeyConfigured then none else some (500, apiKeyMissingBody)

/-- The `/depositors` route as mounted, `checkDuneApiKey` first: a
missing credential is surfaced before the handler (and hence before any
fetch attempt) runs. -/
def depositorsRoute (apiKeyConfigured : Bool)
    (queryIdParam envDefault : Option String) (producer : Except String α)
    (st : CacheState α) (now : Nat) : Sum (Nat × ErrBody) (RouteOutcome α) :=
  match checkDuneApiKey apiKeyConfigured with
  | some r => Sum.inl r
  | none => Sum.inr (depositorsHandler queryIdParam envDefault producer st now)

/-- The `/lighter-exchange-stats` handler (source lines 541-577): proxy
the upstream call with no cache; serve the processed data on success and
the catch body `{error, details}` with 500 on failure. -/
def lighterExchangeStatsHandler (upstream : Except String α) :
    Nat × Except ErrBody α :=
  match upstream with
  | Except.ok d => (200, Except.ok d)
  | Except.error msg => (500, Except.error (lighterStatsErrorBody msg))

/-- Test for the character class `[a-fA-F0-9]` of the source's address
regular expression. -/
def isHexChar (c : Char) : Bool :=
  (decide ('0' ≤ c) && decide (c ≤ '9')) ||
  (decide ('a' ≤ c) && decide (c ≤ 'f')) ||
  (decide ('A' ≤ c) && decide (c ≤ 'F'))

/-- The source's address validation `/^0x[a-fA-F0-9]\x7b40\x7d$/.test(address)`:
exactly `0x` followed by forty hexadecimal characters. -/
def isValidEthAddress (s : String) : Bool :=
  match s.data with
  | '0' :: 'x' :: rest => rest.length == 40 && rest.all isHexChar
  | _ => false

/-- The `/lighter-account/:address` handler (source lines 582-649):
reject a malformed address with 400 before any upstream call; otherwise
call the upstream account API, translating an upstream 400 whose error
code is 21100 into a 404 `accountNotFoundBody`, any other upstream
failure into a 500 catch body, and serving the account data on success.
The upstream response is embedded as `Except (Nat × Option Nat × String) α`
(failure carries the upstream HTTP status, the parsed error code, and
the message text); the final Boolean records whether the upstream call
was made. -/
def lighterAccountHandler (address : String)
    (upstream : Except (Nat × Option Nat × String) α) :
    Nat × Except ErrBody α × Bool :=
  if isValidEthAddress address then
    match upstream with
    | Except.ok d => (200, Except.ok d, true)
    | Except.error (ustatus, code, msg) =>
        if ustatus == 400 && code == some 21100 then
          (404, Except.error accountNotFoundBody, true)
        else
          (500,
            Except.error (accountErrorBody
              (("Lighter API error: " ++ toString ustatus) ++ (" - " ++ msg))),
            true)
  else (400, Except.error invalidAddressBody, false)

/-- Counterexample to claim C7 as stated: the `/deposits-timeline`
endpoint calls the upstream producer without first consulting the cache
and without populating it afterwards — even with data already cached
under the corresponding key, the producer is invoked, its fresh value is
served, and the store is left exactly as it was. -/
theorem deposits_timeline_bypasses_cache :
    (depositsTimelineHandler (some "q") none (Except.ok 9 : Except String Nat)
        [(getCacheKey "deposits-timeline" "q", ⟨7, 0⟩)]).producerInvoked
      = true ∧
    (depositsTimelineHandler (some "q") none (Except.ok 9 : Except String Nat)
        [(getCacheKey "deposits-timeline" "q", ⟨7, 0⟩)]).state =
      [(getCacheKey "deposits-timeline" "q", ⟨7, 0⟩)] ∧
    (depositsTimelineHandler (some "q") none (Except.ok 9 : Except String Nat)
        [(getCacheKey "deposits-timeline" "q", ⟨7, 0⟩)]).result =
      some (Except.ok 9) := by
  exact ⟨rfl, rfl, rfl⟩

theorem depositorsHandler_queryId {α : Type} (qp env : Option String)
    (p : Except String α) (st : CacheState α) (now : Nat) :
    (depositorsHandler qp env p st now).queryId =
      some (qp.getD (env.getD "5253927")) := by
  simp only [depositorsHandler]
  rcases (getCachedData (getCacheKey "depositors" (qp.getD (env.getD "5253927")))
      st now).hit with _ | d
  · cases p <;> rfl
  · rfl

/-- Claim C7 (amended): the `/depositors` endpoint behaves as the claim
says — optional query parameter with environment fallback and then the
constant `'5253927'`, a fresh cache hit served without a producer call,
and a successful miss populating the cache under the derived key — but
`/deposits-timeline` (and likewise `/query`) invokes the producer with
the cache neither consulted nor populated, so not every data endpoint
routes its fetch through the cache. -/
theorem cached_and_direct_routes {α : Type} :
    (∀ (qp env : Option String) (p : Except String α) (st : CacheState α)
        (now : Nat) (e : CacheEntry α),
        cacheGet (getCacheKey "depositors" (qp.getD (env.getD "5253927"))) st
          = some e →
        now - e.timestamp < CACHE_TTL →
        depositorsHandler qp env p st now =
          ⟨200, some (Except.ok e.data),
            some (qp.getD (env.getD "5253927")), st, false⟩) ∧
    (∀ (qp env : Option String) (d : α) (st : CacheState α) (now : Nat),
        (getCachedData (getCacheKey "depositors" (qp.getD (env.getD "5253927")))
            st now).hit = none →
        cacheGet (getCacheKey "depositors" (qp.getD (env.getD "5253927")))
            (depositorsHandler qp env (Except.ok d) st now).state
          = some ⟨d, now⟩ ∧
        (depositorsHandler qp env (Except.ok d) st now).producerInvoked = true) ∧
    (∀ (qp env : Option String) (p : Except String α) (st : CacheState α)
        (now : Nat),
        (depositorsHandler qp env p st now).queryId =
          some (qp.getD (env.getD "5253927"))) ∧
    (∀ (qp env : Option String) (p : Except String α) (st st' : CacheState α),
        (depositsTimelineHandler qp env p st).state = st ∧
        (depositsTimelineHandler qp env p st).result =
          (depositsTimelineHandler qp env p st').result ∧
        (depositsTimelineHandler qp env p st).producerInvoked =
          (qp <|> env).isSome) := by
  refine ⟨?_, ?_, fun qp env p st now => depositorsHandler_queryId qp env p st now, ?_⟩
  · intro qp env p st now e hget hfresh
    have hread : getCachedData
        (getCacheKey "depositors" (qp.getD (env.getD "5253927"))) st now =
        ⟨some e.data, st, []⟩ := by
      unfold getCachedData
      rw [hget]
      simp [hfresh]
    simp only [depositorsHandler, hread]
  · intro qp env d st now hmiss
    have h1 : depositorsHandler qp env (Except.ok d) st now =
        ⟨200, some (Except.ok d), some (qp.getD (env.getD "5253927")),
          setCachedData (getCacheKey "depositors" (qp.getD (env.getD "5253927"))) d
            (getCachedData
              (getCacheKey "depositors" (qp.getD (env.getD "5253927"))) st now).state
            now, true⟩ := by
      simp only [depositorsHandler]
      rcases hr : getCachedData
          (getCacheKey "depositors" (qp.getD (env.getD "5253927"))) st now with
        ⟨o, st2, ops⟩
      rw [hr] at hmiss
      simp only at hmiss
      subst hmiss
      rfl
    rw [h1]
    exact ⟨cacheGet_cacheSet_self _ _ _, rfl⟩
  · intro qp env p st st'
    unfold depositsTimelineHandler
    rcases qp <|> env with _ | q
    · exact ⟨rfl, rfl, rfl⟩
    · cases p <;> exact ⟨rfl, rfl, rfl⟩

/-- Witness for C7 (amended): a fresh entry under `depositors_5253927`
is served without a producer call, and a miss with a successful producer
leaves the payload cached under that key. -/
theorem cached_and_direct_routes_witness :
    depositorsHandler (some "5253927") none
        (Except.error "down" : Except String Nat)
        [("depositors_5253927", ⟨70000, 0⟩)] 1000 =
      ⟨200, some (Except.ok 70000), some "5253927",
        [("depositors_5253927", ⟨70000, 0⟩)], false⟩ ∧
    cacheGet "depositors_5253927"
        (depositorsHandler (some "5253927") none
          (Except.ok 70000 : Except String Nat) ([] : CacheState Nat) 0).state =
      some ⟨70000, 0⟩ :=
  ⟨cached_and_direct_routes.1 (some "5253927") none (Except.error "down")
      [("depositors_5253927", ⟨70000, 0⟩)] 1000 ⟨70000, 0⟩ (by decide) (by decide),
    (cached_and_direct_routes.2.1 (some "5253927") none 70000 [] 0 (by decide)).1⟩

/-- Counterexample to claim C8 as stated: the `/lighter-exchange-stats`
endpoint fails with a body `{error, details}` that carries no `message`
and no `timestamp` field, so not every data endpoint's failure body has
the shape `{error, message, timestamp}`. -/
theorem lighter_stats_error_shape :
    lighterExchangeStatsHandler (Except.error "boom" : Except String Nat) =
      (500, Except.error
        ⟨"Failed to fetch exchange statistics", none, some "boom", false, none⟩) ∧
    (lighterStatsErrorBody "boom").message = none ∧
    (lighterStatsErrorBody "boom").hasTimestamp = false := by
  exact ⟨rfl, rfl, rfl⟩

/-- Claim C8 (amended): the Dune-backed data endpoints' catch handlers
answer 500 with `{error, message, timestamp}` bodies, a missing required
query identifier yields 400 with `{error, message}` (no timestamp), the
lighter proxy endpoints answer with `{error, details}` bodies carrying
neither `message` nor `timestamp`, the upstream not-found condition
yields 404, and a missing credential is surfaced as 500 (body without
timestamp) before the handler — hence before any fetch — runs. -/
theorem error_response_shapes {α : Type} :
    (∀ (qp env : Option String) (msg : String) (now : Nat),
        (depositorsHandler qp env (Except.error msg) ([] : CacheState α) now).status
          = 500 ∧
        (depositorsHandler qp env (Except.error msg) ([] : CacheState α) now).result
          = some (Except.error (depositorsErrorBody msg)) ∧
        (depositorsErrorBody msg).message.isSome = true ∧
        (depositorsErrorBody msg).hasTimestamp = true) ∧
    (∀ (p : Except String α) (st : CacheState α),
        depositsTimelineHandler none none p st =
          ⟨400, some (Except.error missingQueryIdTimelineBody), none, st, false⟩ ∧
        missingQueryIdTimelineBody.message.isSome = true ∧
        missingQueryIdTimelineBody.hasTimestamp = false) ∧
    (∀ msg : String,
        lighterExchangeStatsHandler (Except.error msg : Except String α) =
          (500, Except.error (lighterStatsErrorBody msg)) ∧
        (lighterStatsErrorBody msg).message = none ∧
        (lighterStatsErrorBody msg).hasTimestamp = false) ∧
    (∀ (qp env : Option String) (p : Except String α) (st : CacheState α)
        (now : Nat),
        lighterAccountHandler "0xaaaaaaaaaaaaaaaaaaaaaaaaaaaaaaaaaaaaaaaa"
            (Except.error (400, some 21100, "missing")
              : Except (Nat × Option Nat × String) α) =
          (404, Except.error accountNotFoundBody, true) ∧
        accountNotFoundBody.hasTimestamp = false ∧
        depositorsRoute false qp env p st now = Sum.inl (500, apiKeyMissingBody) ∧
        apiKeyMissingBody.hasTimestamp = false) := by
  refine ⟨fun qp env msg now => ⟨rfl, rfl, rfl, rfl⟩,
    fun p st => ⟨rfl, rfl, rfl⟩,
    fun msg => ⟨rfl, rfl, rfl⟩,
    fun qp env p st now => ⟨rfl, rfl, rfl, rfl⟩⟩

/-- Claim C9: the `/lighter-account/:address` handler rejects any
address not matching `0x` followed by forty hexadecimal characters with
400 `Invalid Ethereum address format` and no upstream call (the outcome
is the same whatever the upstream would have answered), and translates
an upstream 400 carrying error code 21100 into a 404. -/
theorem lighter_account_validation {α : Type} (addr : String)
    (up : Except (Nat × Option Nat × String) α) :
    (isValidEthAddress addr = false →
        lighterAccountHandler addr up =
          (400, Except.error invalidAddressBody, false)) ∧
    (∀ msg : String, isValidEthAddress addr = true →
        lighterAccountHandler addr
            (Except.error (400, some 21100, msg)
              : Except (Nat × Option Nat × String) α) =
          (404, Except.error accountNotFoundBody, true)) := by
  constructor
  · intro h
    unfold lighterAccountHandler
    simp [h]
  · intro msg h
    unfold lighterAccountHandler
    simp [h]

/-- Witness for C9: the malformed address `"nope"` is rejected with 400
and no upstream call, and a well-formed address whose upstream answer is
a 400 with code 21100 is answered with 404. -/
theorem lighter_account_validation_witness :
    lighterAccountHandler "nope"
        (Except.ok 1 : Except (Nat × Option Nat × String) Nat) =
      (400, Except.error invalidAddressBody, false) ∧
    lighterAccountHandler "0xaaaaaaaaaaaaaaaaaaaaaaaaaaaaaaaaaaaaaaaa"
        (Except.error (400, some 21100, "acct")
          : Except (Nat × Option Nat × String) Nat) =
      (404, Except.error accountNotFoundBody, true) :=
  ⟨(lighter_account_validation "nope" (Except.ok 1)).1 (by decide),
    (lighter_account_validation "0xaaaaaaaaaaaaaaaaaaaaaaaaaaaaaaaaaaaaaaaa"
        (Except.error (400, some 21100, "acct"))).2 "acct" (by decide)⟩

end Fees
